import Mathlib

/-!
A shallow embedding of `src/src-tauri/src/lib.rs`: the seven Tauri command
handlers (`greet`, `create_directory`, `write_file_content`,
`read_file_content`, `path_exists`, `read_directory`, `remove_path`) over a
functional model of the filesystem.

The filesystem is modelled as an association list from paths (lists of
components) to nodes (a regular file with its content, or a directory); the
standard-library calls the Rust code delegates to (`fs::create_dir_all`,
`fs::File::create` + `write_all`, `fs::read_to_string`, `Path::exists`,
`fs::read_dir`, `fs::remove_file`, `fs::remove_dir`, `fs::remove_dir_all`)
are modelled as state-passing functions returning `Except OsError`, and each
command is then defined exactly as the Rust source composes those calls,
mapping each error to a string via the source's `format!` prefixes.
-/

/-- A filesystem path, as its list of components. -/
abbrev FsPath := List String

/-- A filesystem node: a regular file with its content, or a directory. -/
inductive Node where
  | file (content : String)
  | dir
deriving DecidableEq

/-- The filesystem state: an association list from paths to nodes (the first
binding for a path is the one in force). -/
abbrev FileSystem := List (FsPath × Node)

/-- An operating-system error, carrying its display message (what Rust's
`{}` formatting of an `std::io::Error` produces). -/
structure OsError where
  msg : String
deriving DecidableEq

/-- The node currently bound to a path, if any. -/
def lookupNode : FileSystem → FsPath → Option Node
  | [], _ => none
  | (q, n) :: rest, p => if q = p then some n else lookupNode rest p

/-- Drop every binding for the given path. -/
def removeBindings : FileSystem → FsPath → FileSystem
  | [], _ => []
  | (q, n) :: rest, p =>
    if q = p then removeBindings rest p else (q, n) :: removeBindings rest p

/-- Bind a path to a node, dropping any previous binding. -/
def setNode (fs : FileSystem) (p : FsPath) (n : Node) : FileSystem :=
  (p, n) :: removeBindings fs p

/-- Drop the bindings of a path and of all of its descendants. -/
def removeTree : FileSystem → FsPath → FileSystem
  | [], _ => []
  | (q, n) :: rest, p =>
    if p.isPrefixOf q then removeTree rest p else (q, n) :: removeTree rest p

/-- `some name` when `q` is an immediate child of `p` named `name`. -/
def asChildOf (p q : FsPath) : Option String :=
  if q.take p.length = p then
    match q.drop p.length with
    | [name] => some name
    | _ => none
  else none

/-- The immediate children of a directory path, with their nodes. -/
def childEntries (fs : FileSystem) (p : FsPath) : List (String × Node) :=
  fs.filterMap (fun e => (asChildOf p e.1).map (fun name => (name, e.2)))

/-- Whether the path is currently bound to a directory (Rust's
`Path::is_dir`, which is `false` for missing paths and files). -/
def isDirAt (fs : FileSystem) (p : FsPath) : Bool :=
  match lookupNode fs p with
  | some Node.dir => true
  | _ => false

/-- Whether the path is currently bound to a regular file. -/
def isFileAt (fs : FileSystem) (p : FsPath) : Bool :=
  match lookupNode fs p with
  | some (Node.file _) => true
  | _ => false

/-- Whether a node is a directory (Rust's `FileType::is_dir`). -/
def isDirNode : Node → Bool
  | Node.dir => true
  | Node.file _ => false

/-- The nonempty prefixes of a path, shortest first. -/
def properAncestors (p : FsPath) : List FsPath :=
  (List.range p.length).map (fun i => p.take (i + 1))

/-- Model of `std::fs::create_dir_all`: create the directory and every
missing ancestor; fails when some ancestor (or the path itself) is a regular
file; succeeds without change on the empty path or an existing directory. -/
def create_dir_all (fs : FileSystem) (p : FsPath) : Except OsError FileSystem :=
  if (properAncestors p).all (fun q => !isFileAt fs q) then
    Except.ok ((properAncestors p).foldl (fun acc q => setNode acc q Node.dir) fs)
  else
    Except.error ⟨"Not a directory (os error 20)"⟩

/-- Whether the parent directory of a path exists (the empty parent is the
filesystem root, which always exists). -/
def parentExists (fs : FileSystem) (p : FsPath) : Bool :=
  match p.dropLast with
  | [] => true
  | q => isDirAt fs q

/-- Model of `std::fs::File::create`: create (or truncate to empty) the file
at the path; fails on the empty path, on a directory, and when the parent
directory is missing. -/
def file_create (fs : FileSystem) (p : FsPath) : Except OsError FileSystem :=
  if p = [] then Except.error ⟨"No such file or directory (os error 2)"⟩
  else if isDirAt fs p then Except.error ⟨"Is a directory (os error 21)"⟩
  else if parentExists fs p then Except.ok (setNode fs p (Node.file ""))
  else Except.error ⟨"No such file or directory (os error 2)"⟩

/-- Model of `std::io::Write::write_all` on a freshly created file handle:
replace the content of the file at the path. -/
def write_all (fs : FileSystem) (p : FsPath) (content : String) :
    Except OsError FileSystem :=
  match lookupNode fs p with
  | some (Node.file _) => Except.ok (setNode fs p (Node.file content))
  | _ => Except.error ⟨"Bad file descriptor (os error 9)"⟩

/-- Model of `std::fs::read_to_string`: the content of the file at the path. -/
def read_to_string (fs : FileSystem) (p : FsPath) : Except OsError String :=
  match lookupNode fs p with
  | some (Node.file c) => Except.ok c
  | some Node.dir => Except.error ⟨"Is a directory (os error 21)"⟩
  | none => Except.error ⟨"No such file or directory (os error 2)"⟩

/-- A raw directory entry as Rust's `read_dir` iterator yields it: the entry
name, and the `file_type()` result (which may itself fail). -/
structure RawEntry where
  file_name : String
  file_type : Except OsError Bool

/-- Model of `std::fs::read_dir`: the list of per-entry results. Over this
deterministic filesystem model every yielded entry is `ok` with an `ok` file
type; the command's loop is nevertheless defined over arbitrary raw lists. -/
def read_dir (fs : FileSystem) (p : FsPath) :
    Except OsError (List (Except OsError RawEntry)) :=
  if isDirAt fs p then
    Except.ok ((childEntries fs p).map
      (fun e => Except.ok ⟨e.1, Except.ok (isDirNode e.2)⟩))
  else if (lookupNode fs p).isSome then
    Except.error ⟨"Not a directory (os error 20)"⟩
  else
    Except.error ⟨"No such file or directory (os error 2)"⟩

/-- Model of `std::fs::remove_file`: remove the regular file at the path. -/
def remove_file (fs : FileSystem) (p : FsPath) : Except OsError FileSystem :=
  match lookupNode fs p with
  | some (Node.file _) => Except.ok (removeBindings fs p)
  | some Node.dir => Except.error ⟨"Is a directory (os error 21)"⟩
  | none => Except.error ⟨"No such file or directory (os error 2)"⟩

/-- Model of `std::fs::remove_dir`: remove the directory at the path, which
must be empty. -/
def remove_dir (fs : FileSystem) (p : FsPath) : Except OsError FileSystem :=
  match lookupNode fs p with
  | some Node.dir =>
    if childEntries fs p = [] then Except.ok (removeBindings fs p)
    else Except.error ⟨"Directory not empty (os error 39)"⟩
  | some (Node.file _) => Except.error ⟨"Not a directory (os error 20)"⟩
  | none => Except.error ⟨"No such file or directory (os error 2)"⟩

/-- Model of `std::fs::remove_dir_all`: remove the directory at the path
together with all of its contents. -/
def remove_dir_all (fs : FileSystem) (p : FsPath) : Except OsError FileSystem :=
  match lookupNode fs p with
  | some Node.dir => Except.ok (removeTree fs p)
  | some (Node.file _) => Except.error ⟨"Not a directory (os error 20)"⟩
  | none => Except.error ⟨"No such file or directory (os error 2)"⟩

/-- The source's `format!("Failed to ...: {}", e)` error conversion. -/
def fmtErr (description : String) (e : OsError) : String :=
  description ++ e.msg

/-- `fn greet(name: &str) -> String` (lib.rs:7-9). -/
def greet (name : String) : String :=
  s!"Hello, {name}! You've been greeted from Rust!"

/-- `fn create_directory(path: String) -> Result<(), String>` (lib.rs:13-15). -/
def create_directory (fs : FileSystem) (path : FsPath) :
    Except String FileSystem :=
  (create_dir_all fs path).mapError (fmtErr "Failed to create directory: ")

/-- `fn write_file_content(path: String, content: String) -> Result<(), String>`
(lib.rs:19-22): `File::create` then `write_all`, each error mapped. -/
def write_file_content (fs : FileSystem) (path : FsPath) (content : String) :
    Except String FileSystem := do
  let file ← (file_create fs path).mapError (fmtErr "Failed to create file: ")
  (write_all file path content).mapError (fmtErr "Failed to write file: ")

/-- `fn read_file_content(path: String) -> Result<String, String>`
(lib.rs:26-28). -/
def read_file_content (fs : FileSystem) (path : FsPath) : Except String String :=
  (read_to_string fs path).mapError (fmtErr "Failed to read file: ")

/-- `fn path_exists(path: String) -> bool` (lib.rs:32-34). -/
def path_exists (fs : FileSystem) (path : FsPath) : Bool :=
  (lookupNode fs path).isSome

/-- The per-entry flag the source computes:
`entry.file_type().map(|t| t.is_dir()).unwrap_or(false)` (lib.rs:44). -/
def entryIsDirFlag (e : RawEntry) : Bool :=
  match e.file_type with
  | Except.ok b => b
  | Except.error _ => false

/-- One step of the source's `for entry in entries` loop (lib.rs:41-47):
push `(name, is_dir)` for an `Ok` entry, skip an `Err` entry. -/
def pushEntry (results : List (String × Bool)) (entry : Except OsError RawEntry) :
    List (String × Bool) :=
  match entry with
  | Except.ok e => results ++ [(e.file_name, entryIsDirFlag e)]
  | Except.error _ => results

/-- The whole entry loop of `read_directory` (lib.rs:40-47). -/
def processEntries (entries : List (Except OsError RawEntry)) :
    List (String × Bool) :=
  entries.foldl pushEntry []

/-- `read_directory` after the `read_dir` call: map the opening error, or
run the entry loop (lib.rs:39-48). -/
def read_directory_core
    (raw : Except OsError (List (Except OsError RawEntry))) :
    Except String (List (String × Bool)) :=
  match raw with
  | Except.error e => Except.error (fmtErr "Failed to read directory: " e)
  | Except.ok entries => Except.ok (processEntries entries)

/-- `fn read_directory(path: String) -> Result<Vec<(String, bool)>, String>`
(lib.rs:38-49). -/
def read_directory (fs : FileSystem) (path : FsPath) :
    Except String (List (String × Bool)) :=
  read_directory_core (read_dir fs path)

/-- `fn remove_path(path: String, recursive: bool) -> Result<(), String>`
(lib.rs:53-64). -/
def remove_path (fs : FileSystem) (path : FsPath) (recursive : Bool) :
    Except String FileSystem :=
  if isDirAt fs path then
    if recursive then
      (remove_dir_all fs path).mapError (fmtErr "Failed to remove directory: ")
    else
      (remove_dir fs path).mapError (fmtErr "Failed to remove directory: ")
  else
    (remove_file fs path).mapError (fmtErr "Failed to remove file: ")

/-- Modelled on the spec words "with the error converted to a string
message": forward the std call's result unchanged, converting an error to
the static description followed by the error's message. -/
def withErrorConverted {α : Type} (description : String) (u : Except OsError α) :
    Except String α :=
  match u with
  | Except.ok a => Except.ok a
  | Except.error e => Except.error (description ++ e.msg)

/-- Spec-side restatement of `create_directory`: the result of
`create_dir_all`, with the error converted. -/
def spec_create_directory (fs : FileSystem) (path : FsPath) :
    Except String FileSystem :=
  withErrorConverted "Failed to create directory: " (create_dir_all fs path)

/-- Spec-side restatement of `write_file_content`: write the content to a
newly created file, with each error converted. -/
def spec_write_file_content (fs : FileSystem) (path : FsPath) (content : String) :
    Except String FileSystem :=
  match file_create fs path with
  | Except.error e => Except.error ("Failed to create file: " ++ e.msg)
  | Except.ok created => withErrorConverted "Failed to write file: " (write_all created path content)

/-- Spec-side restatement of `read_file_content`: the result of
`read_to_string`, with the error converted. -/
def spec_read_file_content (fs : FileSystem) (path : FsPath) :
    Except String String :=
  withErrorConverted "Failed to read file: " (read_to_string fs path)

/-- Spec-side restatement of `read_directory`: when `read_dir` succeeds, the
directory's entries as `(name, is_dir)` pairs; its error converted otherwise. -/
def spec_read_directory (fs : FileSystem) (path : FsPath) :
    Except String (List (String × Bool)) :=
  match read_dir fs path with
  | Except.error e => Except.error ("Failed to read directory: " ++ e.msg)
  | Except.ok _ => Except.ok ((childEntries fs path).map (fun e => (e.1, isDirNode e.2)))

/-- The std remove call `remove_path` matches to its arguments. -/
def matchingRemoveCall (fs : FileSystem) (path : FsPath) (recursive : Bool) :
    Except OsError FileSystem :=
  if isDirAt fs path then
    if recursive then remove_dir_all fs path else remove_dir fs path
  else remove_file fs path

/-- The static error description `remove_path` uses for its arguments. -/
def matchingRemoveDescription (fs : FileSystem) (path : FsPath) : String :=
  if isDirAt fs path then "Failed to remove directory: " else "Failed to remove file: "

/-- Spec-side restatement of `remove_path`: the matching remove call, with
the error converted. -/
def spec_remove_path (fs : FileSystem) (path : FsPath) (recursive : Bool) :
    Except String FileSystem :=
  withErrorConverted (matchingRemoveDescription fs path)
    (matchingRemoveCall fs path recursive)

/-- A command result mirrors its underlying std call: it is `Except.error`
exactly when the call fails, the message being the static description
followed by the underlying error's message. -/
def mirrorsError {α β : Type} (r : Except String α) (description : String)
    (u : Except OsError β) : Prop :=
  match u with
  | Except.error e => r = Except.error (description ++ e.msg)
  | Except.ok _ => r.isOk = true

theorem mapError_fmtErr (description : String) {α : Type} (u : Except OsError α) :
    u.mapError (fmtErr description) = withErrorConverted description u := by
  cases u <;> rfl

theorem lookupNode_setNode_self (fs : FileSystem) (p : FsPath) (n : Node) :
    lookupNode (setNode fs p n) p = some n := by
  simp [setNode, lookupNode]

theorem lookupNode_removeBindings_self (fs : FileSystem) (p : FsPath) :
    lookupNode (removeBindings fs p) p = none := by
  induction fs with
  | nil => rfl
  | cons e rest ih =>
    obtain ⟨q, n⟩ := e
    by_cases h : q = p <;> simp [removeBindings, h, lookupNode, ih]

theorem removeTree_no_descendant (fs : FileSystem) (p : FsPath) :
    (removeTree fs p).all (fun e => !(p.isPrefixOf e.1)) = true := by
  induction fs with
  | nil => rfl
  | cons e rest ih =>
    obtain ⟨q, n⟩ := e
    cases h : p.isPrefixOf q with
    | true =>
      rw [removeTree, if_pos h]
      exact ih
    | false =>
      rw [removeTree, if_neg (by simp [h])]
      simp [List.all_cons, h, ih]

theorem foldl_pushEntry_acc (l : List (Except OsError RawEntry))
    (acc : List (String × Bool)) :
    l.foldl pushEntry acc = acc ++ l.foldl pushEntry [] := by
  induction l generalizing acc with
  | nil => simp
  | cons x t ih =>
    rw [List.foldl_cons, List.foldl_cons, ih, ih (pushEntry [] x)]
    cases x <;> simp [pushEntry]

theorem processEntries_append (xs ys : List (Except OsError RawEntry)) :
    processEntries (xs ++ ys) = processEntries xs ++ processEntries ys := by
  unfold processEntries
  rw [List.foldl_append, foldl_pushEntry_acc]

theorem processEntries_map_ok (l : List (String × Node)) :
    processEntries (l.map (fun e => Except.ok ⟨e.1, Except.ok (isDirNode e.2)⟩)) =
      l.map (fun e => (e.1, isDirNode e.2)) := by
  induction l with
  | nil => rfl
  | cons x t ih =>
    unfold processEntries
    rw [List.map_cons, List.foldl_cons, foldl_pushEntry_acc]
    unfold processEntries at ih
    rw [ih]
    simp [pushEntry, entryIsDirFlag]

/-- C10 -/
theorem greet_formats_fixed_greeting (name : String) :
    greet name = "Hello, " ++ name ++ "! You've been greeted from Rust!" := rfl

/-- C5 -/
theorem path_exists_is_total_boolean (fs : FileSystem) (p : FsPath) :
    (path_exists fs p = true ↔ ∃ n, lookupNode fs p = some n) ∧
    (path_exists fs p = false ↔ lookupNode fs p = none) := by
  cases hl : lookupNode fs p <;> simp [path_exists, hl]

/-- C1 -/
theorem commands_are_fs_pass_throughs (fs : FileSystem) (p : FsPath)
    (c : String) (r : Bool) :
    create_directory fs p = spec_create_directory fs p ∧
    write_file_content fs p c = spec_write_file_content fs p c ∧
    read_file_content fs p = spec_read_file_content fs p ∧
    read_directory fs p = spec_read_directory fs p ∧
    remove_path fs p r = spec_remove_path fs p r := by
  refine ⟨?_, ?_, ?_, ?_, ?_⟩
  · rw [create_directory, spec_create_directory, mapError_fmtErr]
  · rw [write_file_content, spec_write_file_content]
    cases h1 : file_create fs p with
    | error e => simp [Except.mapError, fmtErr, Bind.bind, Except.bind]
    | ok created =>
      simp only [Except.mapError, Bind.bind, Except.bind]
      cases h2 : write_all created p c <;>
        simp [h2, withErrorConverted, fmtErr, Except.mapError]
  · rw [read_file_content, spec_read_file_content, mapError_fmtErr]
  · rw [read_directory, spec_read_directory]
    cases hd : isDirAt fs p with
    | true =>
      simp [read_dir, hd, read_directory_core, processEntries_map_ok]
    | false =>
      cases hs : (lookupNode fs p).isSome <;>
        simp [read_dir, hd, hs, read_directory_core, fmtErr]
  · rw [remove_path, spec_remove_path, matchingRemoveCall, matchingRemoveDescription]
    cases hd : isDirAt fs p with
    | true => cases r <;> simp [mapError_fmtErr]
    | false => simp [mapError_fmtErr]

/-- C2 -/
theorem commands_map_errors_with_static_descriptions (fs : FileSystem)
    (p : FsPath) (c : String) (r : Bool) :
    mirrorsError (create_directory fs p) "Failed to create directory: "
      (create_dir_all fs p) ∧
    (match file_create fs p with
     | Except.error e =>
       write_file_content fs p c =
         Except.error ("Failed to create file: " ++ e.msg)
     | Except.ok created =>
       mirrorsError (write_file_content fs p c) "Failed to write file: "
         (write_all created p c)) ∧
    mirrorsError (read_file_content fs p) "Failed to read file: "
      (read_to_string fs p) ∧
    mirrorsError (read_directory fs p) "Failed to read directory: "
      (read_dir fs p) ∧
    mirrorsError (remove_path fs p r) (matchingRemoveDescription fs p)
      (matchingRemoveCall fs p r) := by
  refine ⟨?_, ?_, ?_, ?_, ?_⟩
  · cases h : create_dir_all fs p <;>
      simp [mirrorsError, create_directory, h, Except.mapError, fmtErr, Except.isOk, Except.toBool]
  · cases h1 : file_create fs p with
    | error e =>
      simp [write_file_content, h1, Except.mapError, fmtErr, Bind.bind, Except.bind]
    | ok created =>
      cases h2 : write_all created p c <;>
        simp [mirrorsError, write_file_content, h1, h2, Except.mapError, fmtErr,
          Bind.bind, Except.bind, Except.isOk, Except.toBool]
  · cases h : read_to_string fs p <;>
      simp [mirrorsError, read_file_content, h, Except.mapError, fmtErr, Except.isOk, Except.toBool]
  · cases h : read_dir fs p <;>
      simp [mirrorsError, read_directory, h, read_directory_core, fmtErr, Except.isOk, Except.toBool]
  · rw [remove_path, matchingRemoveCall, matchingRemoveDescription]
    cases hd : isDirAt fs p with
    | true =>
      cases r with
      | true =>
        cases h : remove_dir_all fs p <;>
          simp [mirrorsError, h, Except.mapError, fmtErr, Except.isOk, Except.toBool]
      | false =>
        cases h : remove_dir fs p <;>
          simp [mirrorsError, h, Except.mapError, fmtErr, Except.isOk, Except.toBool]
    | false =>
      cases h : remove_file fs p <;>
        simp [mirrorsError, h, Except.mapError, fmtErr, Except.isOk, Except.toBool]

/-- C3 -/
theorem read_directory_lists_directory_entries (fs : FileSystem) (p : FsPath) :
    if isDirAt fs p = true then
      read_directory fs p =
        Except.ok ((childEntries fs p).map (fun e => (e.1, isDirNode e.2)))
    else (read_directory fs p).isOk = false := by
  cases hd : isDirAt fs p with
  | true =>
    simp [read_directory, read_dir, hd, read_directory_core, processEntries_map_ok]
  | false =>
    cases hs : (lookupNode fs p).isSome <;>
      simp [read_directory, read_dir, hd, hs, read_directory_core, Except.isOk, Except.toBool]

/-- C4 -/
theorem remove_path_removes_the_path (fs : FileSystem) (p : FsPath) (r : Bool) :
    match lookupNode fs p, r with
    | some Node.dir, true =>
        remove_path fs p true = Except.ok (removeTree fs p) ∧
        (removeTree fs p).all (fun e => !(p.isPrefixOf e.1)) = true
    | some Node.dir, false =>
        if childEntries fs p = [] then
          remove_path fs p false = Except.ok (removeBindings fs p) ∧
          lookupNode (removeBindings fs p) p = none
        else (remove_path fs p false).isOk = false
    | some (Node.file _), _ =>
        remove_path fs p r = Except.ok (removeBindings fs p) ∧
        lookupNode (removeBindings fs p) p = none
    | none, _ => (remove_path fs p r).isOk = false := by
  cases hl : lookupNode fs p with
  | none =>
    have hd : isDirAt fs p = false := by simp [isDirAt, hl]
    simp [remove_path, hd, remove_file, hl, Except.mapError, Except.isOk, Except.toBool]
  | some n =>
    cases n with
    | file s =>
      have hd : isDirAt fs p = false := by simp [isDirAt, hl]
      simp [remove_path, hd, remove_file, hl, Except.mapError,
        lookupNode_removeBindings_self]
    | dir =>
      have hd : isDirAt fs p = true := by simp [isDirAt, hl]
      cases r with
      | true =>
        simp [remove_path, hd, remove_dir_all, hl, Except.mapError,
          removeTree_no_descendant]
      | false =>
        by_cases hc : childEntries fs p = []
        · simp [remove_path, hd, remove_dir, hl, hc, Except.mapError,
            lookupNode_removeBindings_self]
        · simp [remove_path, hd, remove_dir, hl, hc, Except.mapError, Except.isOk, Except.toBool]

/-- C6 -/
theorem write_then_read_roundtrip (fs fs2 : FileSystem) (p : FsPath) (c : String)
    (h : write_file_content fs p c = Except.ok fs2) :
    lookupNode fs2 p = some (Node.file c) ∧
    read_file_content fs2 p = Except.ok c := by
  rw [write_file_content] at h
  cases h1 : file_create fs p with
  | error e =>
    rw [h1] at h
    simp [Except.mapError, Bind.bind, Except.bind] at h
  | ok created =>
    rw [h1] at h
    simp only [Except.mapError, Bind.bind, Except.bind] at h
    rw [write_all] at h
    cases h3 : lookupNode created p with
    | none =>
      rw [h3] at h
      simp [Except.mapError] at h
    | some n =>
      cases n with
      | dir =>
        rw [h3] at h
        simp [Except.mapError] at h
      | file s =>
        rw [h3] at h
        simp only [Except.mapError] at h
        have h4 : setNode created p (Node.file c) = fs2 := by
          simpa using h
        rw [← h4]
        refine ⟨lookupNode_setNode_self created p (Node.file c), ?_⟩
        simp [read_file_content, read_to_string, lookupNode_setNode_self,
          Except.mapError]

theorem write_then_read_roundtrip_check :
    lookupNode [((["f"] : FsPath), Node.file "hi")] ["f"] =
      some (Node.file "hi") ∧
    read_file_content [((["f"] : FsPath), Node.file "hi")] ["f"] =
      Except.ok "hi" :=
  write_then_read_roundtrip [] [(["f"], Node.file "hi")] ["f"] "hi" rfl

/-- C7 -/
theorem commands_are_deterministic_and_stateless
    (fsA fsB : FileSystem) (pA pB : FsPath) (cA cB nA nB : String) (rA rB : Bool)
    (hfs : fsA = fsB) (hp : pA = pB) (hc : cA = cB) (hn : nA = nB) (hr : rA = rB) :
    greet nA = greet nB ∧
    create_directory fsA pA = create_directory fsB pB ∧
    write_file_content fsA pA cA = write_file_content fsB pB cB ∧
    read_file_content fsA pA = read_file_content fsB pB ∧
    path_exists fsA pA = path_exists fsB pB ∧
    read_directory fsA pA = read_directory fsB pB ∧
    remove_path fsA pA rA = remove_path fsB pB rB := by
  subst hfs hp hc hn hr
  exact ⟨rfl, rfl, rfl, rfl, rfl, rfl, rfl⟩

theorem commands_are_deterministic_and_stateless_check :
    greet "u" = greet "u" ∧
    create_directory [] ["d"] = create_directory [] ["d"] ∧
    write_file_content [] ["d"] "c" = write_file_content [] ["d"] "c" ∧
    read_file_content [] ["d"] = read_file_content [] ["d"] ∧
    path_exists [] ["d"] = path_exists [] ["d"] ∧
    read_directory [] ["d"] = read_directory [] ["d"] ∧
    remove_path [] ["d"] true = remove_path [] ["d"] true :=
  commands_are_deterministic_and_stateless [] [] ["d"] ["d"] "c" "c" "u" "u"
    true true rfl rfl rfl rfl rfl

/-- C8 -/
theorem read_directory_skips_failed_entries
    (entries xs ys : List (Except OsError RawEntry)) (err : OsError)
    (fname : String) :
    read_directory_core (Except.ok entries) =
      Except.ok (processEntries entries) ∧
    read_directory_core (Except.error err) =
      Except.error ("Failed to read directory: " ++ err.msg) ∧
    processEntries (xs ++ Except.error err :: ys) = processEntries (xs ++ ys) ∧
    processEntries (xs ++ Except.ok ⟨fname, Except.error err⟩ :: ys) =
      processEntries xs ++ (fname, false) :: processEntries ys := by
  refine ⟨rfl, rfl, ?_, ?_⟩
  · rw [processEntries_append, processEntries_append]
    have h1 : processEntries (Except.error err :: ys) = processEntries ys := by
      unfold processEntries
      rw [List.foldl_cons, foldl_pushEntry_acc]
      simp [pushEntry]
    rw [h1]
  · rw [processEntries_append]
    have h1 : processEntries (Except.ok ⟨fname, Except.error err⟩ :: ys) =
        (fname, false) :: processEntries ys := by
      unfold processEntries
      rw [List.foldl_cons, foldl_pushEntry_acc]
      simp [pushEntry, entryIsDirFlag]
    rw [h1]

/-- C9 -/
theorem remove_path_recursive_flag_ignored_for_files (fs : FileSystem)
    (p : FsPath) (_hex : path_exists fs p = true) (hnd : isDirAt fs p = false) :
    remove_path fs p true = remove_path fs p false ∧
    remove_path fs p true =
      (remove_file fs p).mapError (fmtErr "Failed to remove file: ") := by
  simp [remove_path, hnd]

theorem remove_path_recursive_flag_ignored_for_files_check :
    remove_path [((["f"] : FsPath), Node.file "x")] ["f"] true =
      remove_path [((["f"] : FsPath), Node.file "x")] ["f"] false ∧
    remove_path [((["f"] : FsPath), Node.file "x")] ["f"] true =
      (remove_file [((["f"] : FsPath), Node.file "x")] ["f"]).mapError
        (fmtErr "Failed to remove file: ") :=
  remove_path_recursive_flag_ignored_for_files [(["f"], Node.file "x")] ["f"]
    rfl rfl
